import Mathlib

/-!
Verification development for the TRD tracklet transformer
(src/Detectors/TRD/base/src/TrackletTransformer.cxx).

The C++ code is shallowly embedded: machine floats/doubles are modelled as
real numbers, the raw bit-packed fields as natural numbers and the decoded
signed fields as integers.  Geometry, pad-plane and calibration services are
modelled as structures of read-only lookup functions, exactly mirroring the
accessors the transformer calls.
-/

/-- Width in bits of the packed position field of a Tracklet64 word.
Modelled from the spec: the constant NBITSTRKLPOS is declared in
DataFormatsTRD/Constants.h, outside src/; the Tracklet64 word stores an
11-bit position field. -/
def NBITSTRKLPOS : ℕ := 11

/-- Width in bits of the packed slope field of a Tracklet64 word.
Modelled from the spec: the constant NBITSTRKLSLOPE is declared in
DataFormatsTRD/Constants.h, outside src/; the Tracklet64 word stores an
8-bit slope field. -/
def NBITSTRKLSLOPE : ℕ := 8

/-- Number of pad columns covered by one MCM.  Modelled from the spec
("columnsPerMCM", §4.2): constant NCOLMCM from DataFormatsTRD/Constants.h,
outside src/. -/
def NCOLMCM : ℕ := 18

/-- Additional bit shift of the slope field.  Modelled from the spec
("slopeBitShift", §4.3): constant ADDBITSHIFTSLOPE from
DataFormatsTRD/Constants.h, outside src/. -/
def ADDBITSHIFTSLOPE : ℕ := 1 <<< 1

/-- Legacy/XOR-mode field decoder, the exact translation of
TrackletTransformer.cxx lines 105-108 (position) and 109-112 (slope), which
are textually identical up to the field width `n`:

  position = tracklet.getPosition() ^ 0x80;
  if (position & (1 << (NBITSTRKLPOS - 1))) {
    position = -((~(position - 1)) & ((1 << NBITSTRKLPOS) - 1));
  }

C's bitwise complement-and-mask of a nonnegative value, (~y) & M with
M = (1 << n) - 1, is rendered on naturals as (y ^^^ M) &&& M: XOR with the
all-ones mask flips exactly the masked bits and the final AND truncates,
which is the same bit pattern C produces. -/
def decodeFieldXOR (n raw : ℕ) : ℤ :=
  let x := raw ^^^ 0x80
  if x &&& (1 <<< (n - 1)) ≠ 0 then
    -((((x - 1) ^^^ ((1 <<< n) - 1)) &&& ((1 <<< n) - 1) : ℕ) : ℤ)
  else
    (x : ℤ)

/-- Decoder described by the specification wording for the legacy mode:
"XOR the raw value with the MSB-only mask" of the `n`-bit field, then the
same sign-bit check and complement-and-mask reconstruction.  This follows
the claim text, to be compared against `decodeFieldXOR`, whose XOR mask is
the fixed literal 0x80 of the source. -/
def decodeFieldXORClaim (n raw : ℕ) : ℤ :=
  let x := raw ^^^ (1 <<< (n - 1))
  if x &&& (1 <<< (n - 1)) ≠ 0 then
    -((((x - 1) ^^^ ((1 <<< n) - 1)) &&& ((1 <<< n) - 1) : ℕ) : ℤ)
  else
    (x : ℤ)

/-- Direct-mode field decoder.  Modelled from the spec (§4.1, direct mode):
"the raw value is already provided as a correctly sign-extended integer by
the upstream record accessor" (Tracklet64::getPositionBinSigned /
getSlopeBinSigned, declared outside src/): standard n-bit two's-complement
sign extension of the raw bit pattern. -/
def decodeFieldDirect (n raw : ℕ) : ℤ :=
  if raw &&& (1 <<< (n - 1)) ≠ 0 then
    (raw : ℤ) - ((1 <<< n : ℕ) : ℤ)
  else
    (raw : ℤ)

/-- Re-encoder for the legacy/XOR mode.  Modelled from the spec (§8.1,
"decoding then re-encoding ... recovers the original bit pattern"): the
inverse of the mode's storage convention as implemented by the source,
i.e. the n-bit two's-complement bit pattern of the signed value, XORed with
the source's fixed mask 0x80. -/
def encodeFieldXOR (n : ℕ) (s : ℤ) : ℕ :=
  (s % ((2 : ℤ) ^ n)).toNat ^^^ 0x80

/-- Re-encoder for the legacy/XOR mode as the specification words the
storage convention (§4.1: "the stored value has its top bit flipped
relative to true two's complement"): the n-bit two's-complement bit
pattern of the signed value, XORed with the MSB-only mask of the field. -/
def encodeFieldXORSpec (n : ℕ) (s : ℤ) : ℕ :=
  (s % ((2 : ℤ) ^ n)).toNat ^^^ (1 <<< (n - 1))

/-- Re-encoder for the direct mode.  Modelled from the spec (§4.1, direct
mode): the storage is the plain n-bit two's-complement bit pattern of the
signed value. -/
def encodeFieldDirect (n : ℕ) (s : ℤ) : ℕ :=
  (s % ((2 : ℤ) ^ n)).toNat

/-- Two's-complement interpretation of an n-bit pattern, used to state the
closed form of the decoders. -/
def toSigned (n x : ℕ) : ℤ :=
  if x < 2 ^ (n - 1) then (x : ℤ) else (x : ℤ) - ((2 ^ n : ℕ) : ℤ)

/-- Raw bit-packed tracklet record (Tracklet64).  The accessors called by
transformTracklet are modelled as the stored raw fields; `position` and
`slope` are the raw unsigned bit patterns of the packed fields. -/
structure Tracklet64 where
  hcid : ℕ
  padrow : ℕ
  column : ℕ
  position : ℕ
  slope : ℕ

/-- Modelled from the spec: accessor of the half-chamber id. -/
def Tracklet64.getHCID (t : Tracklet64) : ℕ := t.hcid

/-- Modelled from the spec (§3, "halfChamberSide (derived from chamber id
parity)"): the detector (chamber) index, two half-chambers per chamber. -/
def Tracklet64.getDetector (t : Tracklet64) : ℕ := t.hcid / 2

/-- Modelled from the spec: accessor of the pad row field. -/
def Tracklet64.getPadRow (t : Tracklet64) : ℕ := t.padrow

/-- Modelled from the spec: accessor of the MCM column field. -/
def Tracklet64.getColumn (t : Tracklet64) : ℕ := t.column

/-- Modelled from the spec: accessor of the raw packed position field. -/
def Tracklet64.getPosition (t : Tracklet64) : ℕ := t.position

/-- Modelled from the spec: accessor of the raw packed slope field. -/
def Tracklet64.getSlope (t : Tracklet64) : ℕ := t.slope

/-- Modelled from the spec (§4.1, direct mode): sign-extended position. -/
def Tracklet64.getPositionBinSigned (t : Tracklet64) : ℤ :=
  decodeFieldDirect NBITSTRKLPOS t.position

/-- Modelled from the spec (§4.1, direct mode): sign-extended slope. -/
def Tracklet64.getSlopeBinSigned (t : Tracklet64) : ℤ :=
  decodeFieldDirect NBITSTRKLSLOPE t.slope

/-- Per-detector, per-row pad-plane metadata supplied by the geometry
service (o2::trd::PadPlane, outside src/).  Modelled from the spec (§3,
PadPlaneDescriptor): pad width, row position, row size, row count, exposed
by the accessors the transformer calls. -/
structure PadPlane where
  getWidthIPad : ℝ
  getRowPos : ℕ → ℝ
  getRowSize : ℕ → ℝ
  getNrows : ℕ

/-- The tracking-to-local matrix stored by the geometry for one detector
(ROOT Transform3D, outside src/).  The source applies it through the
inverse-application operator, yielding the local-to-tracking (global)
direction; only that applied affine map is observable here. -/
structure Transform3D where
  applyInverse : ℝ × ℝ × ℝ → ℝ × ℝ × ℝ

/-- Geometry service handle (o2::trd::Geometry, outside src/).  Modelled
from the spec (§6): pad-plane lookup, matrix lookup and the scalar chamber
heights queried at initialization and by getTimebin. -/
structure Geometry where
  cdrHght : ℝ
  camHght : ℝ
  getPadPlane : ℕ → PadPlane
  getMatrixT2L : ℕ → Transform3D

/-- Drift-velocity / Lorentz-angle calibration service (outside src/).
Modelled from the spec (§6): per-detector drift velocity and ExB angle. -/
structure CalVdriftExB where
  getVdrift : ℕ → ℝ
  getExB : ℕ → ℝ

/-- Timing-offset calibration service (outside src/).  Modelled from the
spec (§6): t0 lookup by chamber id. -/
structure CalT0 where
  getT0 : ℕ → ℝ

/-- The transformer state: injected services plus the four scalars cached
by init() (TrackletTransformer.h members, populated in lines 20-33). -/
structure TrackletTransformer where
  mGeo : Geometry
  mXCathode : ℝ
  mXAnode : ℝ
  mXDrift : ℝ
  mXtb0 : ℝ
  mCalVdriftExB : CalVdriftExB
  mCalT0 : CalT0
  mApplyXOR : Bool

noncomputable section

/-- TrackletTransformer::init (lines 20-33): caches the chamber-frame
reference planes from the geometry.  The services are received here since
the embedding has no global singleton geometry. -/
def TrackletTransformer.init (geo : Geometry) (cal : CalVdriftExB)
    (calT0 : CalT0) (applyXOR : Bool) : TrackletTransformer where
  mGeo := geo
  mXCathode := geo.cdrHght
  mXAnode := geo.cdrHght + geo.camHght / 2
  mXDrift := geo.cdrHght - 0.5
  mXtb0 := -100
  mCalVdriftExB := cal
  mCalT0 := calT0
  mApplyXOR := applyXOR

/-- Modelled from the spec: accessor for the cached drift-region reference
offset (getter declared in the header, outside src/). -/
def TrackletTransformer.getXDrift (tr : TrackletTransformer) : ℝ := tr.mXDrift

/-- Granularity of the position field in pad widths.  Modelled from the
spec ("fixed sub-pad granularity constant", §4.2): constant
GRANULARITYTRKLPOS from DataFormatsTRD/Constants.h, outside src/. -/
def GRANULARITYTRKLPOS : ℝ := 1 / 40

/-- Granularity of the slope field.  Modelled from the spec
("slopeGranularity", §4.3): constant GRANULARITYTRKLSLOPE from
DataFormatsTRD/Constants.h, outside src/. -/
def GRANULARITYTRKLSLOPE : ℝ := 1 / 128

/-- TrackletTransformer::calculateY (lines 35-45). -/
def TrackletTransformer.calculateY (hcid column : ℕ) (position : ℤ)
    (padPlane : PadPlane) : ℝ :=
  let padWidth := padPlane.getWidthIPad
  let side := hcid % 2
  -- shift such that position = 1 << (NBITSTRKLPOS - 1) corresponds to the MCM center
  let position := position + ((1 <<< (NBITSTRKLPOS - 1) : ℕ) : ℤ)
  -- slightly modified TDP eq 16.1 (appended -1 to the end to account for MCM shared pads)
  let pad : ℝ := ((position - ((1 <<< (NBITSTRKLPOS - 1) : ℕ) : ℤ) : ℤ) : ℝ) * GRANULARITYTRKLPOS
    + (NCOLMCM : ℝ) * ((4 * side + column : ℕ) : ℝ) + 10 - 1
  let y := padWidth * (pad - 72)
  y

/-- TrackletTransformer::calculateZ (lines 47-54). -/
def TrackletTransformer.calculateZ (padrow : ℕ) (padPlane : PadPlane) : ℝ :=
  let rowPos := padPlane.getRowPos padrow
  let rowSize := padPlane.getRowSize padrow
  let middleRowPos := padPlane.getRowPos (padPlane.getNrows / 2)
  rowPos - rowSize / 2 - middleRowPos

/-- TrackletTransformer::calculateDy (lines 56-76). -/
def TrackletTransformer.calculateDy (tr : TrackletTransformer)
    (detector : ℕ) (slope : ℤ) (padPlane : PadPlane) : ℝ :=
  let padWidth := padPlane.getWidthIPad
  let vDrift := tr.mCalVdriftExB.getVdrift detector
  let exb := tr.mCalVdriftExB.getExB detector
  -- nTimeBins should be number of timebins in drift region. 1 timebin is 100 nanosecond
  let rawDy := (slope : ℝ) * ((tr.mXCathode / vDrift) * 10) * padWidth
    * GRANULARITYTRKLSLOPE / ((ADDBITSHIFTSLOPE : ℕ) : ℝ)
  let lorentzCorrection := Real.tan exb * tr.mXAnode
  let calibratedDy := rawDy - lorentzCorrection
  calibratedDy

/-- TrackletTransformer::calibrateX (lines 78-84).  The calibration value
is the average over all chambers, stored in chamber 435. -/
def TrackletTransformer.calibrateX (tr : TrackletTransformer)
    (x : ℝ) : ℝ :=
  let t0Correction := tr.mCalT0.getT0 435
  x + t0Correction

/-- TrackletTransformer::transformL2T (lines 86-94): fetches the
tracking-to-local matrix and applies it in the inverse direction to the
local point, giving the tracking-frame (global) point. -/
def TrackletTransformer.transformL2T (tr : TrackletTransformer)
    (detector : ℕ) (point : ℝ × ℝ × ℝ) : ℝ × ℝ × ℝ :=
  let transformationMatrix := tr.mGeo.getMatrixT2L detector
  transformationMatrix.applyInverse point

/-- Calibrated output record (DataFormatsTRD CalibratedTracklet, outside
src/): the three spatial coordinates and the calibrated deviation. -/
structure CalibratedTracklet where
  x : ℝ
  y : ℝ
  z : ℝ
  dy : ℝ

/-- The raw local chamber space point of transformTracklet (lines 102-123):
decoded position fed to calculateY, pad row to calculateZ, and the cached
drift-region offset as x. -/
def TrackletTransformer.rawLocalPoint (tr : TrackletTransformer)
    (t : Tracklet64) : ℝ × ℝ × ℝ :=
  let padPlane := tr.mGeo.getPadPlane t.getDetector
  let position : ℤ :=
    if tr.mApplyXOR then decodeFieldXOR NBITSTRKLPOS t.getPosition
    else t.getPositionBinSigned
  (tr.getXDrift,
   TrackletTransformer.calculateY t.getHCID t.getColumn position padPlane,
   TrackletTransformer.calculateZ t.getPadRow padPlane)

/-- TrackletTransformer::transformTracklet (lines 96-139). -/
def TrackletTransformer.transformTracklet (tr : TrackletTransformer)
    (t : Tracklet64) (trackingFrame : Bool) : CalibratedTracklet :=
  let detector := t.getDetector
  let slope : ℤ :=
    if tr.mApplyXOR then decodeFieldXOR NBITSTRKLSLOPE t.getSlope
    else t.getSlopeBinSigned
  let padPlane := tr.mGeo.getPadPlane detector
  let p := tr.rawLocalPoint t
  let dy := tr.calculateDy detector slope padPlane
  let calibratedX := tr.calibrateX p.1
  if trackingFrame then
    let sectorSpacePoint := tr.transformL2T detector (calibratedX, p.2.1, p.2.2)
    { x := sectorSpacePoint.1, y := sectorSpacePoint.2.1,
      z := sectorSpacePoint.2.2, dy := dy }
  else
    { x := calibratedX, y := p.2.1, z := p.2.2, dy := dy } -- local frame

/-- TrackletTransformer::getTimebin (lines 141-158). -/
def TrackletTransformer.getTimebin (tr : TrackletTransformer)
    (detector : ℕ) (x : ℝ) : ℝ :=
  let vDrift := tr.mCalVdriftExB.getVdrift detector
  let t0 : ℝ := 4.0 -- time (in timebins) of start of drift region
  -- x = 0 at anode plane and points toward pad plane.
  if x < -tr.mGeo.camHght / 2 then
    -- drift region
    t0 - (x + tr.mGeo.camHght / 2) / (vDrift * 0.1)
  else
    -- anode region: very rough guess
    t0 - 1.0 + |x|

end

noncomputable section

/-- A concrete pad plane with the 0.635 cm pad width of the golden
regression scenario, used for concrete instantiations. -/
def samplePadPlane : PadPlane where
  getWidthIPad := 0.635
  getRowPos := fun _ => 0
  getRowSize := fun _ => 0
  getNrows := 16

/-- Concrete geometry instance for witnesses. -/
def sampleGeometry : Geometry where
  cdrHght := 3
  camHght := 0.7
  getPadPlane := fun _ => samplePadPlane
  getMatrixT2L := fun _ => ⟨fun p => p⟩

/-- Concrete drift-velocity calibration for witnesses. -/
def sampleCal : CalVdriftExB where
  getVdrift := fun _ => 1.5
  getExB := fun _ => 0

/-- Concrete timing calibration for witnesses. -/
def sampleT0 : CalT0 where
  getT0 := fun _ => 0.1

/-- Concrete transformer state for witnesses. -/
def sampleTransformer : TrackletTransformer :=
  TrackletTransformer.init sampleGeometry sampleCal sampleT0 true

end

/-- C1 counterexample: in the golden scenario (half-chamber 0, hence
detector 0 side even, column 0, decoded position 0, pad width 0.635 cm)
calculateY does not return padWidth × (−62); the code's formula carries the
shared-pad −1 term, giving pad index 9 and y = padWidth × (9 − 72). -/
theorem calculateY_golden_counterexample :
    TrackletTransformer.calculateY 0 0 0 samplePadPlane ≠ 0.635 * (-62) := by
  simp only [TrackletTransformer.calculateY, samplePadPlane, NBITSTRKLPOS, NCOLMCM,
    GRANULARITYTRKLPOS, zero_add, sub_self, Nat.zero_mod, mul_zero, add_zero,
    Int.cast_zero, zero_mul, Nat.cast_zero]
  norm_num

/-- C1 (amended): for a tracklet on half-chamber 0 (detector 0, even side),
column 0 and decoded position 0 (centered), calculateY returns
padWidth × (−63): the §4.2 formula gives pad = 10 − 1 = 9 and
y = padWidth × (pad − 72). -/
theorem calculateY_golden (pp : PadPlane) :
    TrackletTransformer.calculateY 0 0 0 pp = pp.getWidthIPad * (-63) := by
  simp only [TrackletTransformer.calculateY, NBITSTRKLPOS, NCOLMCM,
    GRANULARITYTRKLPOS, zero_add, sub_self, Nat.zero_mod, mul_zero, add_zero,
    Int.cast_zero, zero_mul, Nat.cast_zero]
  norm_num

/-- C4: for every transformer state, detector and decoded slope, calculateDy
returns slope × (driftHeight / driftVelocity × 10) × padWidth ×
slopeGranularity / slopeBitShift − tan(LorentzAngle) × anodeOffset, with
driftHeight the cached cathode-plane offset mXCathode, anodeOffset the
cached anode-plane offset mXAnode, and driftVelocity and LorentzAngle read
from the calibration service for the given detector. -/
theorem calculateDy_formula (tr : TrackletTransformer) (detector : ℕ)
    (slope : ℤ) (padPlane : PadPlane) :
    tr.calculateDy detector slope padPlane =
      (slope : ℝ) * ((tr.mXCathode / tr.mCalVdriftExB.getVdrift detector) * 10)
          * padPlane.getWidthIPad * GRANULARITYTRKLSLOPE / ((ADDBITSHIFTSLOPE : ℕ) : ℝ)
        - Real.tan (tr.mCalVdriftExB.getExB detector) * tr.mXAnode := rfl

/-- C5: frame invariance — applying the detector's local-to-global
transformation (transformL2T) to the spatial point returned by
transformTracklet in the local frame yields exactly the spatial point
returned by transformTracklet in the tracking frame. -/
theorem transformTracklet_frame_commute (tr : TrackletTransformer)
    (t : Tracklet64) :
    tr.transformL2T t.getDetector
        ((tr.transformTracklet t false).x, (tr.transformTracklet t false).y,
          (tr.transformTracklet t false).z) =
      ((tr.transformTracklet t true).x, (tr.transformTracklet t true).y,
        (tr.transformTracklet t true).z) := rfl

/-- C6: calculateZ returns rowPosition(padRow) − rowSize(padRow)/2 −
rowPosition(rowCount / 2), the row's lower edge relative to the chamber's
geometric center row, with the middle row index by integer division. -/
theorem calculateZ_formula (padrow : ℕ) (padPlane : PadPlane) :
    TrackletTransformer.calculateZ padrow padPlane =
      padPlane.getRowPos padrow - padPlane.getRowSize padrow / 2
        - padPlane.getRowPos (padPlane.getNrows / 2) := rfl

/-- C7: X constancy — the raw local x coordinate computed by
transformTracklet before calibration equals the cached drift-region
reference constant mXDrift, and any two tracklets on the same half-chamber
(hence differing only in position, slope, pad-row or column fields) get the
identical raw local x. -/
theorem rawLocalX_constant (tr : TrackletTransformer) (t1 t2 : Tracklet64)
    (h : t1.hcid = t2.hcid) :
    (tr.rawLocalPoint t1).1 = tr.mXDrift ∧
      (tr.rawLocalPoint t1).1 = (tr.rawLocalPoint t2).1 := ⟨rfl, rfl⟩

/-- C7 witness: two concrete tracklets on half-chamber 2 differing in
position, slope, pad row and column have the same raw local x, equal to the
cached constant. -/
theorem rawLocalX_constant_witness :
    (⟨2, 0, 0, 5, 7⟩ : Tracklet64).hcid = (⟨2, 11, 1, 9, 3⟩ : Tracklet64).hcid ∧
      ((sampleTransformer.rawLocalPoint ⟨2, 0, 0, 5, 7⟩).1 = sampleTransformer.mXDrift ∧
        (sampleTransformer.rawLocalPoint ⟨2, 0, 0, 5, 7⟩).1 =
          (sampleTransformer.rawLocalPoint ⟨2, 11, 1, 9, 3⟩).1) :=
  ⟨rfl, rawLocalX_constant sampleTransformer ⟨2, 0, 0, 5, 7⟩ ⟨2, 11, 1, 9, 3⟩ rfl⟩

/-- C9: the dy component of the returned CalibratedTracklet is unaffected
by the frame-selection flag. -/
theorem transformTracklet_dy_frame_independent (tr : TrackletTransformer)
    (t : Tracklet64) :
    (tr.transformTracklet t true).dy = (tr.transformTracklet t false).dy := rfl

/-- C10: calculateY depends on the half-chamber id only through its parity:
two half-chamber ids with equal parity and identical column, decoded
position and pad plane give the same y. -/
theorem calculateY_parity (hcid1 hcid2 column : ℕ) (position : ℤ)
    (pp : PadPlane) (h : hcid1 % 2 = hcid2 % 2) :
    TrackletTransformer.calculateY hcid1 column position pp =
      TrackletTransformer.calculateY hcid2 column position pp := by
  simp only [TrackletTransformer.calculateY, h]

/-- C10 witness: half-chamber ids 1 and 3 have equal parity and give the
same y on a concrete pad plane. -/
theorem calculateY_parity_witness :
    1 % 2 = 3 % 2 ∧
      TrackletTransformer.calculateY 1 0 0 samplePadPlane =
        TrackletTransformer.calculateY 3 0 0 samplePadPlane :=
  ⟨by decide, calculateY_parity 1 3 0 0 samplePadPlane (by decide)⟩

/-- C8: timebin monotonicity — for a fixed detector with positive drift
velocity, getTimebin is strictly decreasing in x throughout the drift
region (all x strictly below −camHght/2). -/
theorem getTimebin_drift_strict_anti (tr : TrackletTransformer)
    (detector : ℕ) (x1 x2 : ℝ)
    (hv : 0 < tr.mCalVdriftExB.getVdrift detector)
    (h12 : x1 < x2) (h2 : x2 < -tr.mGeo.camHght / 2) :
    tr.getTimebin detector x1 > tr.getTimebin detector x2 := by
  have h1 : x1 < -tr.mGeo.camHght / 2 := h12.trans h2
  have hd : 0 < tr.mCalVdriftExB.getVdrift detector * 0.1 :=
    mul_pos hv (by norm_num)
  simp only [TrackletTransformer.getTimebin, if_pos h1, if_pos h2]
  have hlt : (x1 + tr.mGeo.camHght / 2) / (tr.mCalVdriftExB.getVdrift detector * 0.1)
      < (x2 + tr.mGeo.camHght / 2) / (tr.mCalVdriftExB.getVdrift detector * 0.1) := by
    apply div_lt_div_of_pos_right _ hd
    linarith
  linarith

/-- C8 witness: on the concrete transformer (camHght = 0.7, vDrift = 1.5),
the drift-region points x1 = −2 < x2 = −1 < −0.35 give a strictly larger
timebin at x1. -/
theorem getTimebin_drift_strict_anti_witness :
    0 < sampleTransformer.mCalVdriftExB.getVdrift 0 ∧
      (-2 : ℝ) < -1 ∧ (-1 : ℝ) < -sampleTransformer.mGeo.camHght / 2 ∧
      sampleTransformer.getTimebin 0 (-2) > sampleTransformer.getTimebin 0 (-1) := by
  have hv : 0 < sampleTransformer.mCalVdriftExB.getVdrift 0 := by
    norm_num [sampleTransformer, TrackletTransformer.init, sampleCal]
  have h2 : (-1 : ℝ) < -sampleTransformer.mGeo.camHght / 2 := by
    norm_num [sampleTransformer, TrackletTransformer.init, sampleGeometry]
  exact ⟨hv, by norm_num, h2,
    getTimebin_drift_strict_anti sampleTransformer 0 (-2) (-1) hv (by norm_num) h2⟩

/-- Fueled divide-and-conquer check of a boolean predicate on the interval
[lo, lo + len): structural recursion on the fuel keeps the evaluation depth
logarithmic, so that exhaustive checks over a field's raw range reduce
inside the kernel. -/
def checkRange (f : ℕ → Bool) : (fuel lo len : ℕ) → Bool
  | 0, _, len => decide (len = 0)
  | fuel + 1, lo, len =>
    if len = 0 then true
    else if len = 1 then f lo
    else checkRange f fuel lo (len / 2) && checkRange f fuel (lo + len / 2) (len - len / 2)

/-- A successful checkRange run certifies the predicate on every point of
the interval. -/
theorem checkRange_sound (f : ℕ → Bool) :
    ∀ fuel lo len, checkRange f fuel lo len = true → ∀ i < len, f (lo + i) = true := by
  intro fuel
  induction fuel with
  | zero =>
    intro lo len h i hi
    simp only [checkRange, decide_eq_true_eq] at h
    omega
  | succ fuel ih =>
    intro lo len h i hi
    simp only [checkRange] at h
    by_cases h0 : len = 0
    · omega
    · rw [if_neg h0] at h
      by_cases h1 : len = 1
      · rw [if_pos h1] at h
        have hz : i = 0 := by omega
        simpa [hz] using h
      · rw [if_neg h1, Bool.and_eq_true] at h
        by_cases hlt : i < len / 2
        · exact ih lo (len / 2) h.1 i hlt
        · have hr := ih (lo + len / 2) (len - len / 2) h.2 (i - len / 2) (by omega)
          have heq : lo + len / 2 + (i - len / 2) = lo + i := by omega
          rwa [heq] at hr

/-- Bounded universal quantification over ℕ from a checkRange certificate. -/
theorem ball_of_checkRange {P : ℕ → Prop} [DecidablePred P] (fuel N : ℕ)
    (h : checkRange (fun v => decide (P v)) fuel 0 N = true) :
    ∀ v < N, P v := by
  intro v hv
  have hc := checkRange_sound _ fuel 0 N h v hv
  simpa using hc

/-- C2 counterexample: the source decoder XORs the raw position with the
fixed mask 0x80, not with the MSB-only mask of the 11-bit position field;
at raw position 0 the source decodes +128 while the claimed procedure
(XOR with bit NBITSTRKLPOS − 1) would decode −1024. -/
theorem decodeXOR_msb_mask_counterexample :
    decodeFieldXOR NBITSTRKLPOS 0 = 128 ∧
      decodeFieldXORClaim NBITSTRKLPOS 0 = -1024 ∧
      decodeFieldXOR NBITSTRKLPOS 0 ≠ decodeFieldXORClaim NBITSTRKLPOS 0 := by
  decide

/-- C2 (amended): in legacy/XOR mode the decoder XORs both raw fields with
the fixed mask 0x80 — the MSB-only mask for the 8-bit slope field, but bit
7 rather than the MSB (bit 10) for the 11-bit position field — and the
subsequent sign-bit test and complement-and-mask reconstruction make the
result the two's-complement interpretation of the XORed pattern over the
field width. -/
theorem decodeXOR_fixed_mask :
    (∀ v < 2 ^ NBITSTRKLPOS,
        decodeFieldXOR NBITSTRKLPOS v = toSigned NBITSTRKLPOS (v ^^^ 0x80)) ∧
      (∀ v < 2 ^ NBITSTRKLSLOPE,
        decodeFieldXOR NBITSTRKLSLOPE v = toSigned NBITSTRKLSLOPE (v ^^^ 0x80)) ∧
      (0x80 : ℕ) = 1 <<< (NBITSTRKLSLOPE - 1) ∧
      (0x80 : ℕ) ≠ 1 <<< (NBITSTRKLPOS - 1) :=
  ⟨ball_of_checkRange 12 _ (by decide), ball_of_checkRange 9 _ (by decide),
    by decide, by decide⟩

/-- C2 witness: the characterization instantiated at raw position 0. -/
theorem decodeXOR_fixed_mask_witness :
    (0 : ℕ) < 2 ^ NBITSTRKLPOS ∧
      decodeFieldXOR NBITSTRKLPOS 0 = toSigned NBITSTRKLPOS (0 ^^^ 0x80) :=
  ⟨by decide, decodeXOR_fixed_mask.1 0 (by decide)⟩

/-- C3 counterexample: with re-encoding taken from the specification's own
wording of the legacy storage convention ("top bit flipped relative to true
two's complement", i.e. XOR with the MSB-only mask), decoding then
re-encoding does not recover the original bit pattern for the 11-bit
position field: raw 0 decodes to +128 and re-encodes to 1152, because the
source's convention flips bit 7, not the top bit. -/
theorem decoder_bijection_counterexample :
    decodeFieldXOR NBITSTRKLPOS 0 = 128 ∧
      encodeFieldXORSpec NBITSTRKLPOS (decodeFieldXOR NBITSTRKLPOS 0) = 1152 ∧
      encodeFieldXORSpec NBITSTRKLPOS (decodeFieldXOR NBITSTRKLPOS 0) ≠ 0 := by
  decide

/-- C3 (amended): for both decoding modes and both packed fields, decoding
is a bijection from [0, 2^N−1] onto [−2^(N−1), 2^(N−1)−1]: every decoded
value lies in the signed range, re-encoding under the mode's actual storage
convention (two's-complement pattern XORed with the source's fixed 0x80
mask in legacy mode; the plain pattern in direct mode) recovers every raw
value, and every value of the signed range is reached. -/
theorem decoder_bijection :
    (∀ v < 2 ^ NBITSTRKLPOS,
        encodeFieldXOR NBITSTRKLPOS (decodeFieldXOR NBITSTRKLPOS v) = v ∧
          -((2 : ℤ) ^ (NBITSTRKLPOS - 1)) ≤ decodeFieldXOR NBITSTRKLPOS v ∧
          decodeFieldXOR NBITSTRKLPOS v ≤ 2 ^ (NBITSTRKLPOS - 1) - 1) ∧
    (∀ k : ℕ, k < 2 ^ NBITSTRKLPOS →
        decodeFieldXOR NBITSTRKLPOS
            (encodeFieldXOR NBITSTRKLPOS ((k : ℤ) - 2 ^ (NBITSTRKLPOS - 1))) =
          (k : ℤ) - 2 ^ (NBITSTRKLPOS - 1)) ∧
    (∀ v < 2 ^ NBITSTRKLSLOPE,
        encodeFieldXOR NBITSTRKLSLOPE (decodeFieldXOR NBITSTRKLSLOPE v) = v ∧
          -((2 : ℤ) ^ (NBITSTRKLSLOPE - 1)) ≤ decodeFieldXOR NBITSTRKLSLOPE v ∧
          decodeFieldXOR NBITSTRKLSLOPE v ≤ 2 ^ (NBITSTRKLSLOPE - 1) - 1) ∧
    (∀ k : ℕ, k < 2 ^ NBITSTRKLSLOPE →
        decodeFieldXOR NBITSTRKLSLOPE
            (encodeFieldXOR NBITSTRKLSLOPE ((k : ℤ) - 2 ^ (NBITSTRKLSLOPE - 1))) =
          (k : ℤ) - 2 ^ (NBITSTRKLSLOPE - 1)) ∧
    (∀ v < 2 ^ NBITSTRKLPOS,
        encodeFieldDirect NBITSTRKLPOS (decodeFieldDirect NBITSTRKLPOS v) = v ∧
          -((2 : ℤ) ^ (NBITSTRKLPOS - 1)) ≤ decodeFieldDirect NBITSTRKLPOS v ∧
          decodeFieldDirect NBITSTRKLPOS v ≤ 2 ^ (NBITSTRKLPOS - 1) - 1) ∧
    (∀ k : ℕ, k < 2 ^ NBITSTRKLPOS →
        decodeFieldDirect NBITSTRKLPOS
            (encodeFieldDirect NBITSTRKLPOS ((k : ℤ) - 2 ^ (NBITSTRKLPOS - 1))) =
          (k : ℤ) - 2 ^ (NBITSTRKLPOS - 1)) ∧
    (∀ v < 2 ^ NBITSTRKLSLOPE,
        encodeFieldDirect NBITSTRKLSLOPE (decodeFieldDirect NBITSTRKLSLOPE v) = v ∧
          -((2 : ℤ) ^ (NBITSTRKLSLOPE - 1)) ≤ decodeFieldDirect NBITSTRKLSLOPE v ∧
          decodeFieldDirect NBITSTRKLSLOPE v ≤ 2 ^ (NBITSTRKLSLOPE - 1) - 1) ∧
    (∀ k : ℕ, k < 2 ^ NBITSTRKLSLOPE →
        decodeFieldDirect NBITSTRKLSLOPE
            (encodeFieldDirect NBITSTRKLSLOPE ((k : ℤ) - 2 ^ (NBITSTRKLSLOPE - 1))) =
          (k : ℤ) - 2 ^ (NBITSTRKLSLOPE - 1)) :=
  ⟨ball_of_checkRange 12 _ (by decide),
    ball_of_checkRange
      (P := fun k => decodeFieldXOR NBITSTRKLPOS
          (encodeFieldXOR NBITSTRKLPOS ((k : ℤ) - 2 ^ (NBITSTRKLPOS - 1))) =
        (k : ℤ) - 2 ^ (NBITSTRKLPOS - 1))
      12 _ (by decide),
    ball_of_checkRange 9 _ (by decide),
    ball_of_checkRange
      (P := fun k => decodeFieldXOR NBITSTRKLSLOPE
          (encodeFieldXOR NBITSTRKLSLOPE ((k : ℤ) - 2 ^ (NBITSTRKLSLOPE - 1))) =
        (k : ℤ) - 2 ^ (NBITSTRKLSLOPE - 1))
      9 _ (by decide),
    ball_of_checkRange 12 _ (by decide),
    ball_of_checkRange
      (P := fun k => decodeFieldDirect NBITSTRKLPOS
          (encodeFieldDirect NBITSTRKLPOS ((k : ℤ) - 2 ^ (NBITSTRKLPOS - 1))) =
        (k : ℤ) - 2 ^ (NBITSTRKLPOS - 1))
      12 _ (by decide),
    ball_of_checkRange 9 _ (by decide),
    ball_of_checkRange
      (P := fun k => decodeFieldDirect NBITSTRKLSLOPE
          (encodeFieldDirect NBITSTRKLSLOPE ((k : ℤ) - 2 ^ (NBITSTRKLSLOPE - 1))) =
        (k : ℤ) - 2 ^ (NBITSTRKLSLOPE - 1))
      9 _ (by decide)⟩

/-- C3 witness: the round trip and the range bounds instantiated at raw
position 7. -/
theorem decoder_bijection_witness :
    (7 : ℕ) < 2 ^ NBITSTRKLPOS ∧
      (encodeFieldXOR NBITSTRKLPOS (decodeFieldXOR NBITSTRKLPOS 7) = 7 ∧
        -((2 : ℤ) ^ (NBITSTRKLPOS - 1)) ≤ decodeFieldXOR NBITSTRKLPOS 7 ∧
        decodeFieldXOR NBITSTRKLPOS 7 ≤ 2 ^ (NBITSTRKLPOS - 1) - 1) :=
  ⟨by decide, decoder_bijection.1 7 (by decide)⟩
